import Mathlib

/-!
Verification development for the Remote Session Proxy of the
`gestionnaire-ssh` repository (Go backend).  The definitions below are a
shallow embedding, translated from the Go sources:

* `src/backend/internal/ssh/proxy.go`    — terminal engine, ws gateway
* `src/backend/internal/sftp/handler.go` — file-transfer engine
* `src/unnamed/part_006`                 — `db.GetHostByID`, `db.CreateSession`,
  `db.CloseSession` and the `models.Host` record

External effects (database rows, the remote ssh library, the filesystem of
the remote host) are modelled as oracle environments; machine strings are
Lean `String`s; the byte-level memory model used for `zeroString` represents
Go heap allocations as a list of byte buffers addressed by index.
-/

namespace GestSSH

/- ───────────────────────── Memory model for zeroString ──────────────────────
A Go heap is a list of allocations (byte buffers); a string value is the
address of the buffer that backs it.  `[]byte(s)` and `string(b)` conversions
copy, i.e. allocate a fresh buffer. -/

/-- A heap: allocation `a` holds the byte list at index `a`. -/
abbrev Heap := List (List Nat)

/-- Read the buffer at address `a` (out-of-range reads give `[]`). -/
def readBuf (h : Heap) (a : Nat) : List Nat := h.getD a []

/-- Allocate a fresh buffer holding `b`; its address is the old heap length. -/
def alloc (h : Heap) (b : List Nat) : Heap × Nat := (h ++ [b], h.length)

/-- Embeds `zeroString` from `src/backend/internal/ssh/proxy.go` lines 225-234.
The Go code builds `b := []byte(strings.Repeat("\x00", len(*s)))` (a fresh
zero-filled allocation), then executes `sp[0] = dp[0]` (repointing the string
header's data pointer at `b`'s backing array), then `*s = string(b)` (which
copies `b` into yet another fresh allocation and repoints the header at it).
The function returns the updated heap and the address the string header points
to afterwards.  Note that no store is ever performed into the buffer the
string pointed to on entry. -/
def zeroString (h : Heap) (s : Nat) : Heap × Nat :=
  let n := (readBuf h s).length
  if n = 0 then (h, s)
  else
    -- b := []byte(strings.Repeat("\x00", len(*s)))
    let hb := alloc h (List.replicate n 0)
    -- sp[0] = dp[0] : the header now aliases b's backing array
    -- *s = string(b) : converting []byte to string copies into a fresh buffer
    let hc := alloc hb.1 (readBuf hb.1 hb.2)
    (hc.1, hc.2)

/-- The byte content of the string "secret" (a stand-in plaintext credential). -/
def secretBytes : List Nat := [115, 101, 99, 114, 101, 116]

/- ───────────────────────────── Origin check (C5) ─────────────────────────────
From `NewHandler` in `src/backend/internal/ssh/proxy.go` lines 255-275 and the
identical `CheckOrigin` closure in `src/backend/internal/sftp/handler.go`
lines 95-114. -/

/-- Whitespace predicate of Go's `strings.TrimSpace` (`unicode.IsSpace`),
restricted to the Latin-1 rule; code points outside this set that Unicode
classes as spaces do not occur in origin strings or origin configurations. -/
def goIsSpace (c : Char) : Bool :=
  c = ' ' || c = '\t' || c = '\n' || c = '\x0b' || c = '\x0c' || c = '\r' ||
  c = '\x85' || c = '\xa0'

/-- Go `strings.TrimSpace`: drop leading and trailing whitespace. -/
def trimSpace (s : String) : String :=
  ⟨((s.toList.dropWhile goIsSpace).reverse.dropWhile goIsSpace).reverse⟩

/-- The `CheckOrigin` closure installed by both engines' `NewHandler`:
an absent (`""`) origin header is allowed; otherwise the origin must equal
some configured entry after that entry is trimmed of surrounding space. -/
def checkOrigin (allowedOrigins : List String) (origin : String) : Bool :=
  if origin = "" then true
  else allowedOrigins.any fun allowed => origin = trimSpace allowed

/- ─────────────────────── Host records and resolution (C3) ───────────────────
`models.Host` (src/unnamed/part_006) restricted to the fields the proxy
reads; the encrypted-credential blob, iv, tags, icon and timestamps are never
consulted by the session engines. -/

structure Host where
  id : String
  userID : String
  name : String
  hostname : String
  port : Nat
  username : String
  authType : String
deriving DecidableEq, Repr

/-- `db.GetHostByID` (src/unnamed/part_006 lines 273-288): one query,
`SELECT ... FROM hosts WHERE id = $1 AND user_id = $2` — a single lookup
filtering simultaneously on host id and owner id.  The row set is modelled as
a list; `find?` returns the first (unique, by primary key) matching row. -/
def GetHostByID (db : List Host) (id userID : String) : Option Host :=
  db.find? fun h => h.id == id && h.userID == userID

/- ─────────────────── Terminal engine trace semantics (C2/C3/C4/C10) ─────────
`Proxy.HandleConnection` (src/backend/internal/ssh/proxy.go lines 51-199) is
embedded as a trace of its record operations and of the client-visible
messages sent by the handler goroutine, over an oracle environment supplying
the outcomes of the ssh-library calls and of the session-record insert.
The two streaming pump loops are embedded separately below (`pumpStdout`,
`clientLoop`); they send no record operations and their termination returns
control to the deferred epilogue modelled here. -/

/-- `ssh.ConnectPayload` (proxy.go lines 21-26). -/
structure ConnectPayload where
  hostID : String
  credential : String
  cols : Nat
  rows : Nat
deriving DecidableEq, Repr

/-- Events of one terminal connection: client-visible sends, the session
record operations, and the internal resolution / dial / credential-zeroing
steps the claims refer to. -/
inductive TEv where
  | resolve
  | dialAttempt
  | zeroCred
  | created (sessionID : String)
  | createFailed
  | recordClosed (sessionID : String)
  | sentError (message : String)
  | sentConnected (sessionID hostName : String)
  | sentClosed (reason : String)
deriving DecidableEq, Repr

/-- Oracle environment for one terminal connection: the host table plus the
outcomes of the external calls made by `HandleConnection`, in program order:
private-key parsing, `gossh.Dial`, `NewSession`, `RequestPty`, the three
pipes, `Shell`, and `db.CreateSession` (which yields `newSessionID` on
success and leaves the session id `""` on failure). -/
structure TermEnv where
  db : List Host
  keyParseOk : Bool
  dialOk : Bool
  dialErr : String
  sessionOk : Bool
  ptyOk : Bool
  stdinOk : Bool
  stdoutOk : Bool
  stderrOk : Bool
  shellOk : Bool
  createOk : Bool
  newSessionID : String
deriving DecidableEq, Repr

/-- PTY geometry defaulting (proxy.go lines 96-102): a zero reported column
or row count falls back to 80×24. -/
def terminalPtySize (cols rows : Nat) : Nat × Nat :=
  (if cols = 0 then 80 else cols, if rows = 0 then 24 else rows)

/-- `Proxy.HandleConnection` (proxy.go lines 51-199): returns the event trace
of the handler goroutine and the final `p.sessionID`.  Go `defer` order is
LIFO at each `return`, so `send("closed", ...)` — registered first, line 52 —
is always the last send, and `zeroString(&credential)` — registered after the
auth switch, line 79 — runs before it on every path that reached the switch
exit (the key-parse failure path calls `zeroString` explicitly instead,
line 74). -/
def handleConnection (env : TermEnv) (payload : ConnectPayload)
    (userID : String) : List TEv × String :=
  match GetHostByID env.db payload.hostID userID with
  | none => ([.resolve, .sentError "host not found", .sentClosed "session ended"], "")
  | some host =>
    if host.authType = "key" ∧ env.keyParseOk = false then
      ([.resolve, .sentError "invalid private key", .zeroCred,
        .sentClosed "session ended"], "")
    else if env.dialOk = false then
      ([.resolve, .dialAttempt, .sentError ("connection failed: " ++ env.dialErr),
        .zeroCred, .sentClosed "session ended"], "")
    else if env.sessionOk = false then
      ([.resolve, .dialAttempt, .sentError "failed to create SSH session",
        .zeroCred, .sentClosed "session ended"], "")
    else if env.ptyOk = false then
      ([.resolve, .dialAttempt, .sentError "failed to request PTY",
        .zeroCred, .sentClosed "session ended"], "")
    else if env.stdinOk = false then
      ([.resolve, .dialAttempt, .sentError "stdin pipe error",
        .zeroCred, .sentClosed "session ended"], "")
    else if env.stdoutOk = false then
      ([.resolve, .dialAttempt, .sentError "stdout pipe error",
        .zeroCred, .sentClosed "session ended"], "")
    else if env.stderrOk = false then
      ([.resolve, .dialAttempt, .sentError "stderr pipe error",
        .zeroCred, .sentClosed "session ended"], "")
    else if env.shellOk = false then
      ([.resolve, .dialAttempt, .sentError "failed to start shell",
        .zeroCred, .sentClosed "session ended"], "")
    else
      -- shell confirmed running: CreateSession, `connected`, streaming loop,
      -- then the deferred epilogue once the loop returns
      let sid := if env.createOk then env.newSessionID else ""
      ([.resolve, .dialAttempt] ++
       (if env.createOk then [.created env.newSessionID] else [.createFailed]) ++
       [.sentConnected sid (Host.name host), .zeroCred,
        .sentClosed "session ended"], sid)

/-- The gateway's deferred `proxy.CloseSession` (ws `ServeHTTP` line 326 and
`Proxy.CloseSession`, proxy.go lines 219-223): after `HandleConnection`
returns, the session record is closed — only when a session id was recorded. -/
def serveTerm (env : TermEnv) (payload : ConnectPayload) (userID : String) :
    List TEv :=
  let r := handleConnection env payload userID
  r.1 ++ (if r.2 ≠ "" then [.recordClosed r.2] else [])

/-- Parse outcome of a payload (`json.Unmarshal` into the payload struct). -/
inductive PayloadParse (α : Type) where
  | bad
  | ok (p : α)
deriving DecidableEq, Repr

/-- Parse outcome of the first frame read after the upgrade:
either `json.Unmarshal` into the envelope fails, or it yields a message of
some type whose payload parses (or not). -/
inductive FirstMsg (α : Type) where
  | malformed
  | msg (msgType : String) (payload : PayloadParse α)
deriving DecidableEq, Repr

/-- The terminal ws gateway `ServeHTTP` after upgrade (proxy.go lines
291-328): reads exactly one message; malformed envelope, wrong type, bad
payload, or an empty host id / credential each emit a single `error` and
return; otherwise the engine runs (followed by the deferred
`CloseSession`). -/
def wsServe (first : FirstMsg ConnectPayload) (env : TermEnv)
    (userID : String) : List TEv :=
  match first with
  | .malformed => [.sentError "invalid message format"]
  | .msg msgType pp =>
    if msgType ≠ "connect" then [.sentError "expected connect message"]
    else
      match pp with
      | .bad => [.sentError "invalid connect payload"]
      | .ok p =>
        if p.hostID = "" ∨ p.credential = "" then
          [.sentError "host_id and credential are required"]
        else serveTerm env p userID

/- ────────────────────── Terminal streaming loops (C6/C7) ────────────────────
The two goroutine loops of `HandleConnection` (proxy.go lines 139-151 stdout
pump, lines 165-198 client loop), embedded as sequential functions over the
sequence of reads each loop performs. -/

/-- One `Read` result of the remote stdout stream (`io.Reader` contract: a
chunk of `data.length` bytes plus a possibly-simultaneous error). -/
structure ReadRes where
  data : String
  isErr : Bool
deriving DecidableEq, Repr

/-- The stdout pump goroutine (proxy.go lines 139-151): read a chunk; if
`n > 0`, send it as one `output` message; if the read also returned an error,
cancel and stop.  Returns the `data` fields of the `output` messages sent, in
send order. -/
def pumpStdout : List ReadRes → List String
  | [] => []
  | r :: rs =>
    (if r.data ≠ "" then [r.data] else []) ++
    (if r.isErr then [] else pumpStdout rs)

/-- A client-loop message after envelope decoding (proxy.go lines 177-197).
`malformedMsg` covers both an envelope `json.Unmarshal` failure (line 178)
and a payload `json.Unmarshal` failure (lines 185, 191): each `continue`s
with no action.  `unknownType` is any type other than
input/resize/disconnect: the switch has no matching case, so the loop simply
continues. -/
inductive CMsg where
  | input (data : String)
  | resize (cols rows : Nat)
  | disconnect
  | malformedMsg
  | unknownType (t : String)
deriving DecidableEq, Repr

/-- An action applied to the remote session by the client loop:
`write d` is `io.WriteString(stdin, d)`; `windowChange h w` is
`session.WindowChange(h, w)` whose x/crypto/ssh signature takes the height
(rows) first and the width (columns) second. -/
inductive RAction where
  | write (data : String)
  | windowChange (h w : Nat)
deriving DecidableEq, Repr

/-- The client loop (proxy.go lines 165-198): processes client messages in
arrival order; `input` writes to the remote stdin, `resize` calls
`session.WindowChange(rows, cols)`, `disconnect` returns, malformed and
unknown messages are skipped.  Returns the remote actions in the order they
are applied. -/
def clientLoop : List CMsg → List RAction
  | [] => []
  | .input d :: rest => .write d :: clientLoop rest
  | .resize c r :: rest => .windowChange r c :: clientLoop rest
  | .disconnect :: _ => []
  | .malformedMsg :: rest => clientLoop rest
  | .unknownType _ :: rest => clientLoop rest

/- ──────────────────── File-transfer engine (C4/C8/C9/C10) ───────────────────
`src/backend/internal/sftp/handler.go`.  The remote filesystem (pkg/sftp
client calls) and the base64 codec are oracle functions; `Except String α`
mirrors each Go call's `(value, err)` pair. -/

/-- `sftp.connectPayload` (handler.go lines 48-51). -/
structure SftpConnectPayload where
  hostID : String
  credential : String
deriving DecidableEq, Repr

/-- One `os.FileInfo` as consumed by the `ls` branch (handler.go lines
244-251): name, size, directory flag, permission string
(`fi.Mode().String()`), and the RFC 3339 rendering of the mod time. -/
structure FInfo where
  name : String
  size : Int
  isDir : Bool
  mode : String
  modTime : String
deriving DecidableEq, Repr

/-- `sftp.FileEntry` (handler.go lines 80-86). -/
structure FileEntry where
  name : String
  size : Int
  isDir : Bool
  mode : String
  modTime : String
deriving DecidableEq, Repr

/-- Building one directory entry from a `FileInfo` (handler.go lines
245-251). -/
def toFileEntry (fi : FInfo) : FileEntry :=
  { name := fi.name, size := fi.size, isDir := fi.isDir, mode := fi.mode,
    modTime := fi.modTime }

/-- Oracles for the remote filesystem and codec calls of the request loop.
`openFile p` is `sftpClient.Open(p)` (outer) followed by `io.ReadAll(f)`
(inner); `createFile` is `OpenFile(p, O_WRONLY|O_CREATE|O_TRUNC)`;
`decodeB64` is `base64.StdEncoding.DecodeString`; file contents are byte
lists. -/
structure SftpFS where
  readDir : String → Except String (List FInfo)
  openFile : String → Except String (Except String (List Nat))
  decodeB64 : String → Except String (List Nat)
  createFile : String → Except String Unit
  writeFile : String → List Nat → Except String Unit
  removeDirectory : String → Except String Unit
  remove : String → Except String Unit
  mkdir : String → Except String Unit
  rename : String → String → Except String Unit

/-- A decoded request of the sftp loop (handler.go lines 216-341).
`badPayload op` is a frame whose type matched `op` but whose payload failed
to unmarshal; `malformedMsg` is an envelope unmarshal failure (line 223,
`continue` with no response); `unknownType` matches no switch case. -/
inductive SReq where
  | ls (path : String)
  | get (path : String)
  | put (path data : String)
  | rm (path : String)
  | mkdirReq (path : String)
  | renameReq (fromPath toPath : String)
  | badPayload (op : String)
  | malformedMsg
  | unknownType (t : String)
deriving DecidableEq, Repr

/-- Server→client messages of the file-transfer engine.  The wire encodes
`getResult.data` in base64 (a library call on the Go side); the model carries
the raw bytes. -/
inductive SMsg where
  | connected (home hostName : String)
  | lsResult (path : String) (entries : List FileEntry)
  | getResult (path name : String) (data : List Nat)
  | done (op path : String)
  | doneRename (fromPath toPath : String)
  | error (message : String)
deriving DecidableEq, Repr

/-- Go `p.Path[strings.LastIndex(p.Path, "/")+1:]` (handler.go line 272):
the suffix after the last slash (the whole string when no slash occurs). -/
def baseName (p : String) : String :=
  ⟨(p.toList.reverse.takeWhile fun c => c ≠ '/').reverse⟩

/-- One iteration of the sftp request loop (handler.go lines 227-340): the
switch over the message type.  Every failure branch sends one `error` and
`continue`s; every success branch sends exactly one response message. -/
def handleReq (fs : SftpFS) (home : String) : SReq → List SMsg
  | .ls p =>
    let path := if p = "" then home else p
    match fs.readDir path with
    | .error e => [.error ("ls: " ++ e)]
    | .ok infos => [.lsResult path (infos.map toFileEntry)]
  | .get p =>
    match fs.openFile p with
    | .error e => [.error ("open: " ++ e)]
    | .ok readRes =>
      match readRes with
      | .error e => [.error ("read: " ++ e)]
      | .ok data => [.getResult p (baseName p) data]
  | .put p d =>
    match fs.decodeB64 d with
    | .error _ => [.error "invalid base64 data"]
    | .ok decoded =>
      match fs.createFile p with
      | .error e => [.error ("create: " ++ e)]
      | .ok _ =>
        match fs.writeFile p decoded with
        | .error e => [.error ("write: " ++ e)]
        | .ok _ => [.done "put" p]
  | .rm p =>
    match fs.removeDirectory p with
    | .ok _ => [.done "rm" p]
    | .error _ =>
      match fs.remove p with
      | .error e => [.error ("remove: " ++ e)]
      | .ok _ => [.done "rm" p]
  | .mkdirReq p =>
    match fs.mkdir p with
    | .error e => [.error ("mkdir: " ++ e)]
    | .ok _ => [.done "mkdir" p]
  | .renameReq f t =>
    match fs.rename f t with
    | .error e => [.error ("rename: " ++ e)]
    | .ok _ => [.doneRename f t]
  | .badPayload op => [.error ("invalid " ++ op ++ " payload")]
  | .malformedMsg => []
  | .unknownType _ => []

/-- The sftp request loop (handler.go lines 216-341): serve requests in
order; every branch of the switch ends the iteration with `continue` (never
`return`), so the loop only stops when the client stream ends. -/
def serveLoop (fs : SftpFS) (home : String) : List SReq → List SMsg
  | [] => []
  | r :: rest => handleReq fs home r ++ serveLoop fs home rest

/-- Does the request hit a failure branch?  Mirrors, per request type, the
error conditions of `handleReq`'s source (used to state C8). -/
def reqFails (fs : SftpFS) (home : String) : SReq → Bool
  | .ls p =>
    match fs.readDir (if p = "" then home else p) with
    | .error _ => true
    | .ok _ => false
  | .get p =>
    match fs.openFile p with
    | .error _ => true
    | .ok (.error _) => true
    | .ok (.ok _) => false
  | .put p d =>
    match fs.decodeB64 d with
    | .error _ => true
    | .ok decoded =>
      match fs.createFile p with
      | .error _ => true
      | .ok _ =>
        match fs.writeFile p decoded with
        | .error _ => true
        | .ok _ => false
  | .rm p =>
    match fs.removeDirectory p, fs.remove p with
    | .error _, .error _ => true
    | _, _ => false
  | .mkdirReq p =>
    match fs.mkdir p with
    | .error _ => true
    | .ok _ => false
  | .renameReq f t =>
    match fs.rename f t with
    | .error _ => true
    | .ok _ => false
  | .badPayload _ => true
  | .malformedMsg => false
  | .unknownType _ => false

/-- Oracle environment of one file-transfer connection (handler.go lines
137-213): host table plus the outcomes of key parsing, `gossh.Dial`,
`pkgsftp.NewClient` and `Getwd` (whose failure falls back to home `"/"`). -/
structure SftpConnEnv where
  db : List Host
  keyParseOk : Bool
  dialOk : Bool
  dialErr : String
  subsystemOk : Bool
  getwdOk : Bool
  getwdHome : String
  fs : SftpFS

/-- The sftp `ServeHTTP` after upgrade (handler.go lines 153-341): one first
frame — envelope failure or wrong type gives `expected connect message`;
payload failure or empty host id / credential gives
`invalid connect payload`; then host resolution, credential construction,
dial, subsystem open, `Getwd`, the `connected` message and the request
loop. -/
def sftpServe (first : FirstMsg SftpConnectPayload) (env : SftpConnEnv)
    (userID : String) (reqs : List SReq) : List SMsg :=
  match first with
  | .malformed => [.error "expected connect message"]
  | .msg msgType pp =>
    if msgType ≠ "connect" then [.error "expected connect message"]
    else
      match pp with
      | .bad => [.error "invalid connect payload"]
      | .ok p =>
        if p.hostID = "" ∨ p.credential = "" then
          [.error "invalid connect payload"]
        else
          match GetHostByID env.db p.hostID userID with
          | none => [.error "host not found"]
          | some host =>
            if host.authType = "key" ∧ env.keyParseOk = false then
              [.error "invalid private key"]
            else if env.dialOk = false then
              [.error ("connection failed: " ++ env.dialErr)]
            else if env.subsystemOk = false then
              [.error "failed to open SFTP subsystem"]
            else
              let home := if env.getwdOk then env.getwdHome else "/"
              .connected home host.name :: serveLoop env.fs home reqs

/-- The ordering the spec sentence for C9 asks of a directory listing:
directories strictly before files, and equal kinds ordered by name
(stated from the spec's words, to compare with what `handleReq` returns). -/
def specDirsFirstSorted : List FileEntry → Bool
  | [] => true
  | [_] => true
  | a :: b :: rest =>
    ((a.isDir && !b.isDir) || (a.isDir == b.isDir && a.name ≤ b.name)) &&
    specDirsFirstSorted (b :: rest)

/- ───────────────────────── Auxiliary definitions ──────────────────────────── -/

/-- Is the event a successful `db.CreateSession` insert? -/
def isCreatedEv : TEv → Bool
  | .created _ => true
  | _ => false

/-- Is the event the `db.CloseSession` end-timestamp update? -/
def isRecordClosedEv : TEv → Bool
  | .recordClosed _ => true
  | _ => false

/-- Is the event a message sent to the client? -/
def isSendEv : TEv → Bool
  | .sentError _ => true
  | .sentConnected _ _ => true
  | .sentClosed _ => true
  | _ => false

/-- The connection reaches the `Connected` state of the spec's state machine
(shell confirmed running): the host resolves, the credential parses when the
auth kind is `key`, and dial, session, PTY, the three pipes and the shell
request all succeed. -/
def reachesConnected (env : TermEnv) (payload : ConnectPayload)
    (userID : String) : Bool :=
  match GetHostByID env.db payload.hostID userID with
  | none => false
  | some host =>
    (host.authType != "key" || env.keyParseOk) && env.dialOk && env.sessionOk &&
    env.ptyOk && env.stdinOk && env.stdoutOk && env.stderrOk && env.shellOk

/- Concrete fixtures used by counterexamples and witnesses. -/

/-- A host row owned by user `u1`. -/
def hostA : Host :=
  { id := "h1", userID := "u1", name := "web-1", hostname := "10.0.0.5",
    port := 22, username := "root", authType := "password" }

/-- A well-formed terminal connect payload for `hostA`. -/
def payloadA : ConnectPayload :=
  { hostID := "h1", credential := "pw", cols := 80, rows := 24 }

/-- Terminal environment that reaches `Connected` but whose
`db.CreateSession` insert fails (the engine logs and continues with an empty
session id). -/
def envCreateFail : TermEnv :=
  { db := [hostA], keyParseOk := true, dialOk := true, dialErr := "",
    sessionOk := true, ptyOk := true, stdinOk := true, stdoutOk := true,
    stderrOk := true, shellOk := true, createOk := false, newSessionID := "" }

/-- Terminal environment where everything, including the record insert,
succeeds. -/
def envAllOk : TermEnv :=
  { envCreateFail with createOk := true, newSessionID := "s1" }

/-- A directory-listing entry that is a plain file named `b.txt`. -/
def finfoFileB : FInfo :=
  { name := "b.txt", size := 10, isDir := false, mode := "-rw-r--r--",
    modTime := "2026-01-02T03:04:05Z" }

/-- A directory-listing entry that is a directory named `adir`. -/
def finfoDirA : FInfo :=
  { name := "adir", size := 4096, isDir := true, mode := "drwxr-xr-x",
    modTime := "2026-01-02T03:04:06Z" }

/-- A remote filesystem whose home listing yields the file before the
directory, and where `/missing` cannot be opened. -/
def fsFixture : SftpFS :=
  { readDir := fun p =>
      if p = "/home/u" then .ok [finfoFileB, finfoDirA]
      else .error "file does not exist",
    openFile := fun p =>
      if p = "/missing" then .error "file does not exist"
      else .ok (.ok [104, 105]),
    decodeB64 := fun _ => .error "illegal base64 data",
    createFile := fun _ => .error "permission denied",
    writeFile := fun _ _ => .error "permission denied",
    removeDirectory := fun _ => .error "not a directory",
    remove := fun _ => .error "file does not exist",
    mkdir := fun _ => .error "permission denied",
    rename := fun _ _ => .error "permission denied" }

/-- A second remote filesystem for the C8 witness: `/missing` fails to open
while the home directory still lists. -/
def fsMissingGet : SftpFS :=
  { fsFixture with
    readDir := fun p =>
      if p = "/home/u" then .ok [finfoDirA] else .error "file does not exist" }

/- ════════════════════════════════ Theorems ═════════════════════════════════ -/

/-- C1.  The spec requires that the plaintext credential's backing memory is
zeroed before the connect handler returns, in both engines.  The code
violates this: (a) `zeroString` — the only zeroing mechanism, used by the
terminal engine — swaps the string header's pointer to a fresh zero-filled
buffer and never overwrites the original allocation, so after the call the
original backing bytes still spell the secret; (b) the file-transfer engine
(`src/backend/internal/sftp/handler.go`) contains no zeroing call at all on
any path.  This theorem evaluates the embedded `zeroString` at the failing
input: a heap holding one credential buffer "secret" at address 0; after the
call the bytes at address 0 are unchanged and are not zero, while the string
header now points at a different allocation filled with zeros. -/
theorem c1_zero_string_leaves_backing_intact :
    readBuf (zeroString [secretBytes] 0).1 0 = secretBytes ∧
    secretBytes ≠ List.replicate secretBytes.length 0 ∧
    (zeroString [secretBytes] 0).2 ≠ 0 ∧
    readBuf (zeroString [secretBytes] 0).1 (zeroString [secretBytes] 0).2 =
      List.replicate secretBytes.length 0 := by
  refine ⟨rfl, by decide, by decide, rfl⟩

/-- C5 counterexample.  The claim says the upgrade succeeds only when the
declared origin exactly equals one of the configured allowed origins.  With
the configured list `[" https://a"]` (note the leading space) the origin
`"https://a"` is accepted although it equals no configured entry, because the
code compares against `strings.TrimSpace(allowed)`. -/
theorem c5_origin_exact_equality_fails :
    checkOrigin [" https://a"] "https://a" = true ∧
    (List.contains [" https://a"] "https://a") = false := by
  exact ⟨rfl, by decide⟩

/-- C5 (amended).  If the request declares an origin header, the upgrade is
allowed exactly when the origin equals one of the configured allowed origins
after trimming surrounding whitespace from the configured entry; a request
without an origin header is always allowed.  (The check runs inside the
upgrader's `CheckOrigin` callback, i.e. before the websocket handshake
completes and before any protocol bytes are exchanged.) -/
theorem c5_origin_check_characterisation (allowedOrigins : List String)
    (origin : String) :
    checkOrigin allowedOrigins origin = true ↔
      (origin = "" ∨ ∃ a ∈ allowedOrigins, origin = trimSpace a) := by
  unfold checkOrigin
  by_cases h : origin = ""
  · simp [h]
  · simp only [if_neg h, List.any_eq_true, decide_eq_true_eq]
    constructor
    · rintro ⟨a, ha, he⟩
      exact Or.inr ⟨a, ha, he⟩
    · rintro (he | ⟨a, ha, he⟩)
      · exact absurd he h
      · exact ⟨a, ha, he⟩

/-- C3.  `db.GetHostByID` filters on host id and owner id in one lookup
(its definition is a single `find?` over the conjunction of both columns,
embedding the single `WHERE id = $1 AND user_id = $2` query).  For a host id
that matches no row and a host id whose rows all belong to a different
owner, the lookup yields the same `none`, and the terminal engine produces
the identical client-visible trace: one `error` with the same text
`host not found`, then the closing message. -/
theorem c3_absent_and_foreign_hosts_indistinguishable (env : TermEnv)
    (uid : String) (pA pB : ConnectPayload)
    (hA : ∀ h ∈ env.db, h.id ≠ pA.hostID)
    (hB : ∀ h ∈ env.db, h.id = pB.hostID → h.userID ≠ uid) :
    GetHostByID env.db pA.hostID uid = none ∧
    GetHostByID env.db pB.hostID uid = none ∧
    serveTerm env pA uid = serveTerm env pB uid ∧
    serveTerm env pA uid =
      [.resolve, .sentError "host not found", .sentClosed "session ended"] := by
  have hnA : GetHostByID env.db pA.hostID uid = none := by
    refine List.find?_eq_none.mpr fun h hm => ?_
    simp only [Bool.and_eq_true, beq_iff_eq]
    rintro ⟨h1, _⟩
    exact hA h hm h1
  have hnB : GetHostByID env.db pB.hostID uid = none := by
    refine List.find?_eq_none.mpr fun h hm => ?_
    simp only [Bool.and_eq_true, beq_iff_eq]
    rintro ⟨h1, h2⟩
    exact hB h hm h1 h2
  refine ⟨hnA, hnB, ?_, ?_⟩
  · simp [serveTerm, handleConnection, hnA, hnB]
  · simp [serveTerm, handleConnection, hnA]

/-- C3 witness: database holding one host `h1` owned by `u1`; caller `u2`
requesting the absent id `nope` and the foreign-owned id `h1` observes the
identical `host not found` error in both cases. -/
theorem c3_witness :
    GetHostByID [hostA] "nope" "u2" = none ∧
    GetHostByID [hostA] "h1" "u2" = none ∧
    serveTerm { envCreateFail with db := [hostA] }
        { payloadA with hostID := "nope" } "u2" =
      serveTerm { envCreateFail with db := [hostA] }
        { payloadA with hostID := "h1" } "u2" ∧
    serveTerm { envCreateFail with db := [hostA] }
        { payloadA with hostID := "nope" } "u2" =
      [.resolve, .sentError "host not found", .sentClosed "session ended"] := by
  exact c3_absent_and_foreign_hosts_indistinguishable
    { envCreateFail with db := [hostA] } "u2"
    { payloadA with hostID := "nope" } { payloadA with hostID := "h1" }
    (by decide) (by decide)

/-- C4.  A first message after upgrade that is not a well-formed `connect`
frame (malformed envelope, or any other message type) makes each gateway
emit exactly one `error` message and return — the terminal trace is a single
`sentError` (so no session record event occurs), and the file-transfer trace
is a single `error` message. -/
theorem c4_non_connect_first_message_rejected
    (first : FirstMsg ConnectPayload) (env : TermEnv) (uid : String)
    (firstS : FirstMsg SftpConnectPayload) (envS : SftpConnEnv)
    (uidS : String) (reqs : List SReq)
    (hT : first = .malformed ∨
      ∃ t pp, first = .msg t pp ∧ t ≠ "connect")
    (hS : firstS = .malformed ∨
      ∃ t pp, firstS = .msg t pp ∧ t ≠ "connect") :
    (∃ m, wsServe first env uid = [.sentError m]) ∧
    ((wsServe first env uid).filter isCreatedEv).length = 0 ∧
    (∃ m, sftpServe firstS envS uidS reqs = [.error m]) := by
  obtain ⟨m, hm⟩ : ∃ m, wsServe first env uid = [.sentError m] := by
    rcases hT with h | ⟨t, pp, h, ht⟩
    · exact ⟨"invalid message format", by simp [h, wsServe]⟩
    · exact ⟨"expected connect message", by simp [h, wsServe, ht]⟩
  refine ⟨⟨m, hm⟩, by simp [hm, isCreatedEv], ?_⟩
  rcases hS with h | ⟨t, pp, h, ht⟩
  · exact ⟨"expected connect message", by simp [h, sftpServe]⟩
  · exact ⟨"expected connect message", by simp [h, sftpServe, ht]⟩

/-- C4 witness: a malformed first envelope on the terminal gateway and an
`ls`-typed first frame on the file-transfer gateway are each answered by a
single `error` message, with no session record event. -/
theorem c4_witness :
    (∃ m, wsServe (FirstMsg.malformed) envAllOk "u1" = [.sentError m]) ∧
    ((wsServe (FirstMsg.malformed) envAllOk "u1").filter isCreatedEv).length
      = 0 ∧
    (∃ m, sftpServe (FirstMsg.msg "ls" PayloadParse.bad)
        { db := [hostA], keyParseOk := true, dialOk := true, dialErr := "",
          subsystemOk := true, getwdOk := true, getwdHome := "/home/u",
          fs := fsFixture } "u1" [] = [.error m]) := by
  exact c4_non_connect_first_message_rejected FirstMsg.malformed envAllOk "u1"
    (FirstMsg.msg "ls" PayloadParse.bad) _ "u1" []
    (Or.inl rfl) (Or.inr ⟨"ls", PayloadParse.bad, rfl, by decide⟩)

/-- C10.  A first `connect` whose payload carries an empty host id or an
empty credential is rejected by each gateway with a single `error` message,
independently of the host table and of every remote-call oracle — in
particular the terminal trace contains no `resolve` and no `dialAttempt`
event, i.e. rejection happens before any host resolution or dial. -/
theorem c10_empty_host_or_credential_rejected
    (p : ConnectPayload) (env : TermEnv) (uid : String)
    (ps : SftpConnectPayload) (envS : SftpConnEnv) (uidS : String)
    (reqs : List SReq)
    (hp : p.hostID = "" ∨ p.credential = "")
    (hps : ps.hostID = "" ∨ ps.credential = "") :
    wsServe (.msg "connect" (.ok p)) env uid =
      [.sentError "host_id and credential are required"] ∧
    sftpServe (.msg "connect" (.ok ps)) envS uidS reqs =
      [.error "invalid connect payload"] := by
  constructor
  · simp [wsServe, hp]
  · simp [sftpServe, hps]

/-- C10 witness: a terminal payload with empty host id and an sftp payload
with empty credential are both rejected with the single respective error. -/
theorem c10_witness :
    wsServe (.msg "connect" (.ok ⟨"", "pw", 80, 24⟩)) envAllOk "u1" =
      [.sentError "host_id and credential are required"] ∧
    sftpServe (.msg "connect" (.ok ⟨"h1", ""⟩))
      { db := [hostA], keyParseOk := true, dialOk := true, dialErr := "",
        subsystemOk := true, getwdOk := true, getwdHome := "/home/u",
        fs := fsFixture } "u1" [] =
      [.error "invalid connect payload"] := by
  exact c10_empty_host_or_credential_rejected ⟨"", "pw", 80, 24⟩ envAllOk "u1"
    ⟨"h1", ""⟩ _ "u1" [] (Or.inl rfl) (Or.inr rfl)

/-- C2 counterexample.  The claim says every terminal session that reaches
`Connected` creates exactly one session record.  In the code the
`db.CreateSession` insert can fail, in which case `HandleConnection` logs and
continues the session with an empty session id: in `envCreateFail` the shell
is confirmed running yet no record is ever created and no end-timestamp
update occurs, while the spec-claimed count is one. -/
theorem c2_record_creation_can_fail :
    reachesConnected envCreateFail payloadA "u1" = true ∧
    ((serveTerm envCreateFail payloadA "u1").filter isCreatedEv).length = 0 ∧
    ((serveTerm envCreateFail payloadA "u1").filter isRecordClosedEv).length
      = 0 := by
  refine ⟨by decide, by decide, by decide⟩

/-- C2 (amended).  For every terminal session that reaches `Connected`
(shell confirmed running), provided the session-record insert succeeds,
exactly one record is created and its end timestamp is set exactly once,
after termination; on this exit path both effects occur and the final
client message is `closed`.  (When the insert fails the engine logs,
continues without a record, and skips the end-timestamp update — see the
counterexample.)  The exact trace shows the full order: resolve, dial,
record created, `connected` sent, credential zeroing, `closed` sent last,
record closed after it. -/
theorem c2_session_record_lifecycle (env : TermEnv) (payload : ConnectPayload)
    (userID : String)
    (hconn : reachesConnected env payload userID = true)
    (hcreate : env.createOk = true)
    (hsid : env.newSessionID ≠ "") :
    (∃ host, GetHostByID env.db payload.hostID userID = some host ∧
      serveTerm env payload userID =
        [.resolve, .dialAttempt, .created env.newSessionID,
         .sentConnected env.newSessionID host.name, .zeroCred,
         .sentClosed "session ended", .recordClosed env.newSessionID]) ∧
    ((serveTerm env payload userID).filter isCreatedEv).length = 1 ∧
    ((serveTerm env payload userID).filter isRecordClosedEv).length = 1 ∧
    ((serveTerm env payload userID).filter isSendEv).getLast? =
      some (.sentClosed "session ended") := by
  unfold reachesConnected at hconn
  obtain ⟨host, hfind⟩ : ∃ host,
      GetHostByID env.db payload.hostID userID = some host := by
    cases hf : GetHostByID env.db payload.hostID userID with
    | none => rw [hf] at hconn; exact absurd hconn (by simp)
    | some host => exact ⟨host, rfl⟩
  rw [hfind] at hconn
  simp only [Bool.and_eq_true, Bool.or_eq_true, bne_iff_ne, ne_eq] at hconn
  obtain ⟨⟨⟨⟨⟨⟨⟨hkey, hdial⟩, hsess⟩, hpty⟩, hin⟩, hout⟩, herr⟩, hshell⟩ := hconn
  have hkey2 : ¬ (host.authType = "key" ∧ env.keyParseOk = false) := by
    rcases hkey with h | h
    · rintro ⟨h1, _⟩; exact h h1
    · rintro ⟨_, h2⟩; rw [h] at h2; simp at h2
  have htrace : serveTerm env payload userID =
      [.resolve, .dialAttempt, .created env.newSessionID,
       .sentConnected env.newSessionID host.name, .zeroCred,
       .sentClosed "session ended", .recordClosed env.newSessionID] := by
    simp [serveTerm, handleConnection, hfind, hkey2, hdial, hsess, hpty, hin,
      hout, herr, hshell, hcreate, hsid]
  refine ⟨⟨host, hfind, htrace⟩, ?_, ?_, ?_⟩ <;>
    simp [htrace, isCreatedEv, isRecordClosedEv, isSendEv, List.getLast?]

/-- C2 witness: in the all-success environment the session that reaches
`Connected` produces exactly the lifecycle trace, with one record creation
and one record close, ending with the `closed` message. -/
theorem c2_witness :
    reachesConnected envAllOk payloadA "u1" = true ∧
    ((∃ host, GetHostByID envAllOk.db payloadA.hostID "u1" = some host ∧
      serveTerm envAllOk payloadA "u1" =
        [.resolve, .dialAttempt, .created envAllOk.newSessionID,
         .sentConnected envAllOk.newSessionID host.name, .zeroCred,
         .sentClosed "session ended", .recordClosed envAllOk.newSessionID]) ∧
    ((serveTerm envAllOk payloadA "u1").filter isCreatedEv).length = 1 ∧
    ((serveTerm envAllOk payloadA "u1").filter isRecordClosedEv).length = 1 ∧
    ((serveTerm envAllOk payloadA "u1").filter isSendEv).getLast? =
      some (.sentClosed "session ended")) := by
  exact ⟨by decide,
    c2_session_record_lifecycle envAllOk payloadA "u1" (by decide) (by decide)
      (by decide)⟩

/-- C6.  The stdout pump forwards one `output` message per non-empty chunk,
in read order, until the stream errors; for any sequence of non-empty chunks
followed by end-of-stream, the messages' data fields are exactly the chunks
and their concatenation is the remote output stream. -/
theorem c6_output_chunks_in_order (chunks : List String)
    (h : ∀ c ∈ chunks, c ≠ "") :
    pumpStdout (chunks.map (fun c => ⟨c, false⟩) ++ [⟨"", true⟩]) = chunks ∧
    String.join
        (pumpStdout (chunks.map (fun c => ⟨c, false⟩) ++ [⟨"", true⟩])) =
      String.join chunks := by
  have he : pumpStdout (chunks.map (fun c => ⟨c, false⟩) ++ [⟨"", true⟩])
      = chunks := by
    induction chunks with
    | nil => simp [pumpStdout]
    | cons c cs ih =>
      have hc : c ≠ "" := h c (by simp)
      have ihs := ih fun x hx => h x (by simp [hx])
      simp [pumpStdout, hc, ihs]
  exact ⟨he, by rw [he]⟩

/-- C6 witness: remote chunks `ab`, `cd`, `ef` yield three `output` messages
in that order, concatenating to `abcdef`. -/
theorem c6_witness :
    pumpStdout (["ab", "cd", "ef"].map (fun c => ⟨c, false⟩) ++ [⟨"", true⟩])
      = ["ab", "cd", "ef"] ∧
    String.join
        (pumpStdout
          (["ab", "cd", "ef"].map (fun c => ⟨c, false⟩) ++ [⟨"", true⟩]))
      = "abcdef" := by
  have h := c6_output_chunks_in_order ["ab", "cd", "ef"] (by decide)
  exact ⟨h.1, by rw [h.1]; rfl⟩

/-- The client loop distributes over concatenation as long as the first part
contains no `disconnect` (which would stop the loop early). -/
theorem clientLoop_append (xs ys : List CMsg) (h : CMsg.disconnect ∉ xs) :
    clientLoop (xs ++ ys) = clientLoop xs ++ clientLoop ys := by
  induction xs with
  | nil => simp [clientLoop]
  | cons x rest ih =>
    have hx : x ≠ CMsg.disconnect := fun he => h (by simp [he])
    have hr : CMsg.disconnect ∉ rest := fun hm => h (by simp [hm])
    cases x with
    | input d => simp [clientLoop, ih hr]
    | resize c r => simp [clientLoop, ih hr]
    | disconnect => exact absurd rfl hx
    | malformedMsg => simp [clientLoop, ih hr]
    | unknownType t => simp [clientLoop, ih hr]

/-- C7.  Client messages are applied to the remote session in arrival order:
whenever a `resize{cols:120, rows:40}` precedes an `input` with no
intervening `disconnect`, the action trace contains the
`WindowChange(40, 120)` call (rows 40, columns 120, i.e. a 120×40 window)
strictly before the write of that input. -/
theorem c7_resize_applied_before_input (pre mid rest : List CMsg) (d : String)
    (hpre : CMsg.disconnect ∉ pre) (hmid : CMsg.disconnect ∉ mid) :
    clientLoop (pre ++ CMsg.resize 120 40 :: (mid ++ CMsg.input d :: rest)) =
      clientLoop pre ++ RAction.windowChange 40 120 ::
        (clientLoop mid ++ RAction.write d :: clientLoop rest) := by
  rw [clientLoop_append pre _ hpre]
  have h2 : clientLoop (CMsg.resize 120 40 :: (mid ++ CMsg.input d :: rest)) =
      RAction.windowChange 40 120 ::
        (clientLoop mid ++ RAction.write d :: clientLoop rest) := by
    rw [clientLoop, clientLoop_append mid _ hmid]
    rfl
  rw [h2]

/-- C7 witness: the message sequence input `a`, resize 120×40, a malformed
frame, input `x` produces the write of `a`, then the window change to
120×40, then the write of `x` — the resize is applied before the following
input. -/
theorem c7_witness :
    clientLoop ([CMsg.input "a"] ++ CMsg.resize 120 40 ::
        ([CMsg.malformedMsg] ++ CMsg.input "x" :: [])) =
      clientLoop [CMsg.input "a"] ++ RAction.windowChange 40 120 ::
        (clientLoop [CMsg.malformedMsg] ++ RAction.write "x" ::
          clientLoop []) := by
  exact c7_resize_applied_before_input [CMsg.input "a"] [CMsg.malformedMsg]
    [] "x" (by decide) (by decide)

/-- C8.  In the file-transfer request loop, a request that hits any failure
branch is answered by exactly one `error` message, and the loop continues
with the remaining requests — a failed operation never terminates the
connection. -/
theorem c8_failed_request_scoped_error (fs : SftpFS) (home : String)
    (r : SReq) (rest : List SReq) (h : reqFails fs home r = true) :
    (∃ m, handleReq fs home r = [.error m]) ∧
    serveLoop fs home (r :: rest) = handleReq fs home r ++
      serveLoop fs home rest := by
  refine ⟨?_, rfl⟩
  cases r with
  | ls p =>
    cases hd : fs.readDir (if p = "" then home else p) with
    | error e => exact ⟨"ls: " ++ e, by simp [handleReq, hd]⟩
    | ok infos => simp [reqFails, hd] at h
  | get p =>
    cases ho : fs.openFile p with
    | error e => exact ⟨"open: " ++ e, by simp [handleReq, ho]⟩
    | ok rr =>
      cases rr with
      | error e => exact ⟨"read: " ++ e, by simp [handleReq, ho]⟩
      | ok data => simp [reqFails, ho] at h
  | put p d =>
    cases hdec : fs.decodeB64 d with
    | error e => exact ⟨"invalid base64 data", by simp [handleReq, hdec]⟩
    | ok decoded =>
      cases hc : fs.createFile p with
      | error e => exact ⟨"create: " ++ e, by simp [handleReq, hdec, hc]⟩
      | ok u =>
        cases hw : fs.writeFile p decoded with
        | error e =>
          exact ⟨"write: " ++ e, by simp [handleReq, hdec, hc, hw]⟩
        | ok u2 => simp [reqFails, hdec, hc, hw] at h
  | rm p =>
    cases hrd : fs.removeDirectory p with
    | error e1 =>
      cases hrm : fs.remove p with
      | error e2 =>
        exact ⟨"remove: " ++ e2, by simp [handleReq, hrd, hrm]⟩
      | ok u => simp [reqFails, hrd, hrm] at h
    | ok u =>
      cases hrm : fs.remove p with
      | error e2 => simp [reqFails, hrd, hrm] at h
      | ok u2 => simp [reqFails, hrd, hrm] at h
  | mkdirReq p =>
    cases hm : fs.mkdir p with
    | error e => exact ⟨"mkdir: " ++ e, by simp [handleReq, hm]⟩
    | ok u => simp [reqFails, hm] at h
  | renameReq f t =>
    cases hr : fs.rename f t with
    | error e => exact ⟨"rename: " ++ e, by simp [handleReq, hr]⟩
    | ok u => simp [reqFails, hr] at h
  | badPayload op =>
    exact ⟨"invalid " ++ op ++ " payload", by simp [handleReq]⟩
  | malformedMsg => simp [reqFails] at h
  | unknownType t => simp [reqFails] at h

/-- C8 witness: `get{path:"/missing"}` fails to open, is answered by exactly
one `error` scoped to it, and the connection remains usable — the subsequent
`ls` is still served with its listing. -/
theorem c8_witness :
    reqFails fsMissingGet "/home/u" (SReq.get "/missing") = true ∧
    ((∃ m, handleReq fsMissingGet "/home/u" (SReq.get "/missing") =
        [.error m]) ∧
      serveLoop fsMissingGet "/home/u"
          (SReq.get "/missing" :: [SReq.ls ""]) =
        handleReq fsMissingGet "/home/u" (SReq.get "/missing") ++
          serveLoop fsMissingGet "/home/u" [SReq.ls ""]) ∧
    serveLoop fsMissingGet "/home/u" [SReq.get "/missing", SReq.ls ""] =
      [.error "open: file does not exist",
       .lsResult "/home/u" [toFileEntry finfoDirA]] := by
  refine ⟨by decide,
    c8_failed_request_scoped_error fsMissingGet "/home/u"
      (SReq.get "/missing") [SReq.ls ""] (by decide), ?_⟩
  rfl

/-- C9 counterexample.  The claim says the entries returned for
`ls{path:""}` are sorted directories-first then by name.  The engine performs
no sorting: with a remote listing that yields the file `b.txt` before the
directory `adir`, the `ls_result` entries keep that order, which violates the
claimed ordering (sorting is done client-side in the browser UI, not here). -/
theorem c9_entries_not_sorted_by_engine :
    handleReq fsFixture "/home/u" (SReq.ls "") =
      [.lsResult "/home/u" [toFileEntry finfoFileB, toFileEntry finfoDirA]] ∧
    specDirsFirstSorted [toFileEntry finfoFileB, toFileEntry finfoDirA] =
      false := by
  exact ⟨rfl, by decide⟩

/-- C9 (amended).  A file-transfer `ls` request with an empty path lists the
remote default/home directory, and the returned entries are exactly the
remote listing's entries in the order the remote returned them (the
directories-before-files, by-name ordering is applied by the browser client,
not by the engine). -/
theorem c9_ls_empty_path_lists_home (fs : SftpFS) (home : String)
    (infos : List FInfo) (h : fs.readDir home = .ok infos) :
    handleReq fs home (SReq.ls "") =
      [.lsResult home (infos.map toFileEntry)] := by
  simp [handleReq, h]

/-- C9 witness: on the fixture filesystem, `ls{path:""}` returns the home
directory `/home/u` with the remote's entries in remote order. -/
theorem c9_witness :
    handleReq fsFixture "/home/u" (SReq.ls "") =
      [.lsResult "/home/u"
        ([finfoFileB, finfoDirA].map toFileEntry)] := by
  exact c9_ls_empty_path_lists_home fsFixture "/home/u"
    [finfoFileB, finfoDirA] rfl

end GestSSH
